import Mathlib

/-!
Verification of the cost-calculation engine in `src/lib/calc.py`
(Db2-to-Snowflake cost calculator).

Shallow embedding conventions:
* Python floats are modelled as rationals (`ℚ`); Python ints as `ℤ`.
* Python dicts are modelled as `String → Option _` maps (`none` = key absent);
  the typed configuration sections are records whose fields are `Option`-valued
  (a `none` field = the corresponding JSON key is absent).
* Python exceptions are modelled by the `PyErr` error type of an `Except`
  computation: `ValueError` (the configuration errors raised explicitly by
  `compute`), `KeyError` (a `d[k]` lookup on an absent key), and
  `ZeroDivisionError` (float division by zero).
* A Python expression `x or 0.0` on a float `x` is numerically the identity
  (it replaces `0.0` by `0.0`), and is embedded as `x`; the `a or b` fallback
  chains on dict lookups (where `None` and `0` are both falsy) are embedded
  by `truthyD` below.
-/

/-- Python runtime errors that `calc.py` can raise: the explicit
`ValueError`s, plus `KeyError` / `ZeroDivisionError` escaping from raw
dict indexing and division. -/
inductive PyErr where
  | valueError (msg : String)
  | keyError (key : String)
  | zeroDivisionError
  deriving DecidableEq

/-- The `InputModel` dataclass of calc.py (lines 27-74), field for field,
with the same defaults. -/
structure InputModel where
  db2_cpu_seconds_per_day : ℚ
  batch_window_hours : ℚ
  concurrency : ℤ
  uncompressed_tb_at_rest : ℚ
  frequency_per_month : ℤ
  egress_tb : ℚ
  egress_route : String
  region : String
  edition : String
  family : String
  snowpipe_files_per_day : ℚ := 0
  snowpipe_compute_hours_per_day : ℚ := 0
  snowpipe_uncompressed_gb_per_day : ℚ := 0
  searchopt_compute_hours_per_day : ℚ := 0
  tasks_hours_per_day : ℚ := 0
  time_travel_tb : ℚ := 0
  failsafe_tb : ℚ := 0
  warehouse_type : String := "standard"
  cluster_count : ℤ := 1
  deriving DecidableEq

/-- `pricing["serverless"]["snowpipe"]["standardEnterprise"]` section. -/
structure SnowpipeSE where
  rateCreditsPer1000Files : Option ℚ
  multiplierCompute : Option ℚ
  deriving DecidableEq

/-- `pricing["serverless"]["snowpipe"]["businessCriticalVPS"]` section. -/
structure SnowpipeBCVPS where
  rateCreditsPerGB : Option ℚ
  deriving DecidableEq

/-- `pricing["serverless"]["snowpipe"]` section. -/
structure SnowpipeCfg where
  standardEnterprise : Option SnowpipeSE
  businessCriticalVPS : Option SnowpipeBCVPS
  deriving DecidableEq

/-- `pricing["serverless"]["searchOptimization"]` section. -/
structure SearchOptCfg where
  multiplierCompute : Option ℚ
  multiplierCloudServices : Option ℚ
  deriving DecidableEq

/-- `pricing["serverless"]["serverlessTasks"]` section. -/
structure TasksCfg where
  multiplierCompute : Option ℚ
  multiplierCloudServices : Option ℚ
  deriving DecidableEq

/-- `pricing["serverless"]` section. -/
structure ServerlessCfg where
  snowpipe : Option SnowpipeCfg
  searchOptimization : Option SearchOptCfg
  serverlessTasks : Option TasksCfg
  tasksOverheadCreditsPerHour : Option ℚ
  deriving DecidableEq

/-- `pricing["regions"][region]`: per-region pricing. -/
structure RegionPricing where
  pricePerCredit : Option (String → Option ℚ)
  storagePerTBMonth : Option ℚ
  egressPerTB : Option (String → Option ℚ)

/-- The pricing configuration dict. -/
structure Pricing where
  regions : Option (String → Option RegionPricing)
  serverless : Option ServerlessCfg

/-- `rules["cloudServices"]` section. -/
structure CloudServicesCfg where
  capCreditsPerHour : Option ℚ
  waiverPctOfDailyWH : Option ℚ
  deriving DecidableEq

/-- The rules configuration dict. -/
structure Rules where
  sizeFactor : Option (String → Option ℚ)
  warehouseCreditsPerHour : Option (String → Option ℚ)
  cloudServices : Option CloudServicesCfg

/-- `calib["workloadFamilies"][family]`: one workload family entry. -/
structure FamilyCfg where
  k_xs_seconds_per_db2_cpu_second : Option ℚ
  deriving DecidableEq

/-- The calibration configuration dict. -/
structure Calib where
  workloadFamilies : Option (String → Option FamilyCfg)
  defaultFamily : Option String

/-- The `"selection"` part of the result dict (calc.py line 414). -/
structure Selection where
  size : String
  creditsPerHour : ℚ
  whHoursDay : ℚ
  clusterCount : ℤ
  deriving DecidableEq

/-- The `"daily"` part of the result dict (calc.py lines 417-422). -/
structure Daily where
  xsHours : ℚ
  whCreditsDay : ℚ
  csCreditsDay : ℚ
  serverlessCreditsDay : ℚ
  deriving DecidableEq

/-- The `"monthly"` part of the result dict (calc.py lines 425-434). -/
structure Monthly where
  credits : ℚ
  dollarsCompute : ℚ
  dollarsStorage : ℚ
  dollarsStorageRegular : ℚ
  dollarsStorageTimeTravel : ℚ
  dollarsStorageFailsafe : ℚ
  dollarsTransfer : ℚ
  grandTotal : ℚ
  deriving DecidableEq

/-- The dict returned by `compute` (calc.py lines 412-458). -/
structure ResultModel where
  selection : Selection
  daily : Daily
  monthly : Monthly
  inputsEcho : InputModel
  deriving DecidableEq

/-- The fixed ascending warehouse-size ladder (calc.py line 117). -/
def sizeOrder : List String := ["XS", "S", "M", "L", "XL", "2XL", "3XL", "4XL"]

/-- Loop body of `pick_size` (calc.py lines 119-132): walk the ladder,
look up each size factor (`KeyError` if absent), divide the total need by
it (`ZeroDivisionError` if zero), and return the first size whose
projected hours fit the window; return `"4XL"` when none fits. -/
def pickSizeAux (need window : ℚ) (size_factor : String → Option ℚ) :
    List String → Except PyErr String
  | [] => Except.ok "4XL"
  | s :: rest =>
    match size_factor s with
    | none => Except.error (PyErr.keyError s)
    | some q =>
      if q = 0 then Except.error PyErr.zeroDivisionError
      else if need / q ≤ window then Except.ok s
      else pickSizeAux need window size_factor rest

/-- `pick_size` (calc.py lines 76-132): need = xs_hours × max(1, concurrency),
then first-fit over the ladder. -/
def pick_size (xs_hours window_h : ℚ) (concurrency : ℤ)
    (size_factor : String → Option ℚ) : Except PyErr String :=
  pickSizeAux (xs_hours * ((max 1 concurrency : ℤ) : ℚ)) window_h size_factor sizeOrder

/-- A raw Python dict lookup `d[key]`: `KeyError` when the key is absent. -/
def lookupNum (d : String → Option ℚ) (key : String) : Except PyErr ℚ :=
  match d key with
  | some v => Except.ok v
  | none => Except.error (PyErr.keyError key)

/-- Python float division: `ZeroDivisionError` on a zero divisor. -/
def pyDiv (a b : ℚ) : Except PyErr ℚ :=
  if b = 0 then Except.error PyErr.zeroDivisionError else Except.ok (a / b)

/-- Stage-1 validation, part 1 (calc.py lines 177-180): the region must be
present under `pricing["regions"]`. -/
def getRegionPricing (pricing : Pricing) (region : String) :
    Except PyErr RegionPricing :=
  match pricing.regions.bind (fun m => m region) with
  | some rp => Except.ok rp
  | none =>
    Except.error (PyErr.valueError
      ("Invalid pricing config: region " ++ region ++ " not found"))

/-- Stage-1 validation, part 2 (calc.py lines 181-182): the region entry
must have a `pricePerCredit` map. -/
def getPricePerCredit (rp : RegionPricing) (region : String) :
    Except PyErr (String → Option ℚ) :=
  match rp.pricePerCredit with
  | some m => Except.ok m
  | none =>
    Except.error (PyErr.valueError
      ("Invalid pricing config: pricePerCredit not found for region " ++ region))

/-- Stage-1 validation, part 3 (calc.py lines 184-185): the calibration
table must have a `workloadFamilies` map. -/
def getWorkloadFamilies (calib : Calib) :
    Except PyErr (String → Option FamilyCfg) :=
  match calib.workloadFamilies with
  | some m => Except.ok m
  | none =>
    Except.error (PyErr.valueError
      "Invalid calibration config: workloadFamilies not found")

/-- Stage-1 validation, part 4 (calc.py lines 187-188): the rules table
must have both `sizeFactor` and `warehouseCreditsPerHour` maps. -/
def getRuleMaps (rules : Rules) :
    Except PyErr ((String → Option ℚ) × (String → Option ℚ)) :=
  match rules.sizeFactor, rules.warehouseCreditsPerHour with
  | some sf, some wm => Except.ok (sf, wm)
  | _, _ =>
    Except.error (PyErr.valueError "Invalid rules config: required fields missing")

/-- Stage 2 (calc.py lines 203-204): resolve the workload family (falling
back to `calib["defaultFamily"]` — a raw `KeyError` if that key is absent)
and fetch its k-factor (raw `KeyError`s when the family or its k entry is
absent). -/
def resolveK (wfm : String → Option FamilyCfg) (defaultFamily : Option String)
    (family : String) : Except PyErr ℚ := do
  let wf ←
    if (wfm family).isSome then Except.ok family
    else
      match defaultFamily with
      | some d => Except.ok d
      | none => Except.error (PyErr.keyError "defaultFamily")
  match wfm wf with
  | none => Except.error (PyErr.keyError wf)
  | some cfg =>
    match cfg.k_xs_seconds_per_db2_cpu_second with
    | some kv => Except.ok kv
    | none => Except.error (PyErr.keyError "k_xs_seconds_per_db2_cpu_second")

/-- Stage 5 parameters (calc.py lines 248-250): `rules["cloudServices"]`
and its `capCreditsPerHour` are raw dict lookups (`KeyError` when absent);
the waiver percentage is a `.get` with default 0.10. -/
def getCSParams (rules : Rules) : Except PyErr (ℚ × ℚ) := do
  let cs ←
    match rules.cloudServices with
    | some c => Except.ok c
    | none => Except.error (PyErr.keyError "cloudServices")
  let cap ←
    match cs.capCreditsPerHour with
    | some v => Except.ok v
    | none => Except.error (PyErr.keyError "capCreditsPerHour")
  Except.ok (cap, cs.waiverPctOfDailyWH.getD (1 / 10))

/-- Stage 6 prerequisite: `pricing["serverless"]` is a raw lookup
(calc.py lines 274/281/293/305), a `KeyError` when absent. -/
def getServerless (pricing : Pricing) : Except PyErr ServerlessCfg :=
  match pricing.serverless with
  | some s => Except.ok s
  | none => Except.error (PyErr.keyError "serverless")

/-- Snowpipe credits/day (calc.py lines 267-286): per-GB pricing for
business_critical / vps, per-1000-files + compute multiplier otherwise,
with built-in defaults 0.0037, 0.06 and 1.25. -/
def snowpipeCredits (sl : ServerlessCfg) (inp : InputModel) : ℚ :=
  if inp.edition = "business_critical" ∨ inp.edition = "vps" then
    let cfg := sl.snowpipe.bind SnowpipeCfg.businessCriticalVPS
    let rate_per_gb := (cfg.bind SnowpipeBCVPS.rateCreditsPerGB).getD (37 / 10000)
    inp.snowpipe_uncompressed_gb_per_day * rate_per_gb
  else
    let cfg := sl.snowpipe.bind SnowpipeCfg.standardEnterprise
    let rate_per_1000 := (cfg.bind SnowpipeSE.rateCreditsPer1000Files).getD (6 / 100)
    let compute_multiplier := (cfg.bind SnowpipeSE.multiplierCompute).getD (5 / 4)
    inp.snowpipe_files_per_day / 1000 * rate_per_1000 +
      inp.snowpipe_compute_hours_per_day * compute_multiplier

/-- Search-optimization credits/day (calc.py lines 293-298): hours times
(compute multiplier, default 2) plus hours times (cloud-services
multiplier, default 1). -/
def searchOptCredits (sl : ServerlessCfg) (inp : InputModel) : ℚ :=
  let cfg := sl.searchOptimization
  let mc := (cfg.bind SearchOptCfg.multiplierCompute).getD 2
  let mcs := (cfg.bind SearchOptCfg.multiplierCloudServices).getD 1
  inp.searchopt_compute_hours_per_day * mc + inp.searchopt_compute_hours_per_day * mcs

/-- Serverless-tasks credits/day (calc.py lines 305-317): multiplier-based
when `multiplierCompute` is declared (defaults 0.9 and 1), otherwise the
legacy flat overhead rate (default 0.25). -/
def tasksCredits (sl : ServerlessCfg) (inp : InputModel) : ℚ :=
  let cfg := sl.serverlessTasks
  if (cfg.bind TasksCfg.multiplierCompute).isSome then
    let tmc := (cfg.bind TasksCfg.multiplierCompute).getD (9 / 10)
    let tcs := (cfg.bind TasksCfg.multiplierCloudServices).getD 1
    inp.tasks_hours_per_day * tmc + inp.tasks_hours_per_day * tcs
  else
    inp.tasks_hours_per_day * (sl.tasksOverheadCreditsPerHour.getD (1 / 4))

/-- Total serverless credits/day (calc.py line 320). -/
def serverlessCredits (sl : ServerlessCfg) (inp : InputModel) : ℚ :=
  snowpipeCredits sl inp + searchOptCredits sl inp + tasksCredits sl inp

/-- Stage-8 resolved edition key (calc.py lines 344-346): vps falls back
to business_critical when the region has no vps price entry. -/
def editionKey (ppc : String → Option ℚ) (edition : String) : String :=
  if edition = "vps" ∧ ppc "vps" = none then "business_critical" else edition

/-- Stage-8 price resolution (calc.py lines 344-351): the explicit
`ValueError` when neither the resolved key nor `business_critical` is
present, then `ppc.get(edition_key) or ppc["business_critical"]` — the
Python `or` treats a present-but-zero price as falsy and falls back to
the raw `business_critical` lookup (`KeyError` when that is absent). -/
def resolvePrice (ppc : String → Option ℚ) (edition region : String) :
    Except PyErr ℚ :=
  if ppc (editionKey ppc edition) = none ∧ ppc "business_critical" = none then
    Except.error (PyErr.valueError
      ("Invalid pricing config: edition " ++ editionKey ppc edition ++
        " and fallback business_critical not found for region " ++ region))
  else
    match ppc (editionKey ppc edition) with
    | some v =>
      if v = 0 then
        match ppc "business_critical" with
        | some w => Except.ok w
        | none => Except.error (PyErr.keyError "business_critical")
      else Except.ok v
    | none =>
      match ppc "business_critical" with
      | some w => Except.ok w
      | none => Except.error (PyErr.keyError "business_critical")

/-- Python truthiness fallback `a or d` on an optional number: `None` and
`0` are falsy. -/
def truthyD (a : Option ℚ) (d : ℚ) : ℚ :=
  match a with
  | some v => if v = 0 then d else v
  | none => d

/-- Stage-10 egress-rate resolution (calc.py lines 387-394): crossCloud
falls back to internet and accountTransfer to interRegion when the region
table lacks them, then a truthiness chain over the two lookups with final
default 0. -/
def egressRate (rp : RegionPricing) (route : String) : ℚ :=
  let er : String → Option ℚ := fun k => rp.egressPerTB.bind (fun m => m k)
  let k1 := if route = "crossCloud" ∧ er "crossCloud" = none then "internet" else route
  let k2 := if route = "accountTransfer" ∧ er "accountTransfer" = none then "interRegion" else k1
  truthyD (er k2) (truthyD (er route) 0)

/-- The pure tail of `compute` (calc.py lines 206-458) once every fallible
lookup has produced its value: stage 1 unit conversion, stage 4 warehouse
credits with the multi-cluster scaling, stage 5 cloud-services min, stage
6 serverless credits, stage 7 monthly scaling, stage 8 dollar conversion,
stages 9-11 storage / transfer / grand total, and the result record.
`whb` is `need / sizeFactor[size]` (line 227, before cluster scaling). -/
def assemble (inp : InputModel) (rp : RegionPricing) (k : ℚ) (size : String)
    (credits_per_hour whb cap waiver_pct : ℚ) (sl : ServerlessCfg)
    (price_per_credit : ℚ) : ResultModel :=
  let xs_hours := inp.db2_cpu_seconds_per_day * k / 3600
  let wh_credits_day0 := whb * credits_per_hour
  let wh_credits_day :=
    if inp.warehouse_type = "multi_cluster" then wh_credits_day0 * (inp.cluster_count : ℚ)
    else wh_credits_day0
  let wh_hours_day :=
    if inp.warehouse_type = "multi_cluster" then whb * (inp.cluster_count : ℚ)
    else whb
  let cs_credits_day := min (cap * wh_hours_day) (waiver_pct * wh_credits_day)
  let serverless_credits_day := serverlessCredits sl inp
  let monthly_credits :=
    (wh_credits_day + cs_credits_day + serverless_credits_day) * (inp.frequency_per_month : ℚ)
  let monthly_dollars := monthly_credits * price_per_credit
  let storage_rate := rp.storagePerTBMonth.getD 0
  let regular_storage_monthly := inp.uncompressed_tb_at_rest * storage_rate
  let time_travel_storage_monthly := inp.time_travel_tb * storage_rate
  let failsafe_storage_monthly := inp.failsafe_tb * storage_rate
  let storage_monthly :=
    regular_storage_monthly + time_travel_storage_monthly + failsafe_storage_monthly
  let transfer_monthly := inp.egress_tb * egressRate rp inp.egress_route
  let grand_total := monthly_dollars + storage_monthly + transfer_monthly
  { selection :=
      { size := size, creditsPerHour := credits_per_hour,
        whHoursDay := wh_hours_day, clusterCount := inp.cluster_count }
    daily :=
      { xsHours := xs_hours, whCreditsDay := wh_credits_day,
        csCreditsDay := cs_credits_day, serverlessCreditsDay := serverless_credits_day }
    monthly :=
      { credits := monthly_credits, dollarsCompute := monthly_dollars,
        dollarsStorage := storage_monthly,
        dollarsStorageRegular := regular_storage_monthly,
        dollarsStorageTimeTravel := time_travel_storage_monthly,
        dollarsStorageFailsafe := failsafe_storage_monthly,
        dollarsTransfer := transfer_monthly, grandTotal := grand_total }
    inputsEcho := inp }

/-- `compute` (calc.py lines 134-458) as the chain of its fallible steps,
in the source's evaluation order: stage-1 validation, k-factor resolution
(line 203-204), size selection (line 214), `warehouseCreditsPerHour[size]`
(line 218), `sizeFactor[size]` and the division (line 227), cloud-services
parameters (lines 248-249), `pricing["serverless"]` (line 274 onwards),
price resolution (lines 344-351), then the pure arithmetic of
`assemble`. -/
def compute (inp : InputModel) (pricing : Pricing) (rules : Rules)
    (calib : Calib) : Except PyErr ResultModel := do
  let rp ← getRegionPricing pricing inp.region
  let ppc ← getPricePerCredit rp inp.region
  let wfm ← getWorkloadFamilies calib
  let maps ← getRuleMaps rules
  let k ← resolveK wfm calib.defaultFamily inp.family
  let size ← pick_size (inp.db2_cpu_seconds_per_day * k / 3600)
    inp.batch_window_hours inp.concurrency maps.1
  let credits_per_hour ← lookupNum maps.2 size
  let f ← lookupNum maps.1 size
  let whb ← pyDiv (inp.db2_cpu_seconds_per_day * k / 3600 *
    ((max 1 inp.concurrency : ℤ) : ℚ)) f
  let cswp ← getCSParams rules
  let sl ← getServerless pricing
  let price ← resolvePrice ppc inp.edition inp.region
  Except.ok (assemble inp rp k size credits_per_hour whb cswp.1 cswp.2 sl price)

/-- The boolean "this size fits the window" predicate of the sizer: the
size has a factor in the table and total need divided by it is within the
window. -/
def qualB (size_factor : String → Option ℚ) (need window : ℚ) (s : String) : Bool :=
  match size_factor s with
  | some q => decide (need / q ≤ window)
  | none => false

/-- Ladder position of a size code (index in `sizeOrder`; unknown codes
map to the top position). -/
def sizePos : String → ℕ
  | "XS" => 0
  | "S" => 1
  | "M" => 2
  | "L" => 3
  | "XL" => 4
  | "2XL" => 5
  | "3XL" => 6
  | _ => 7

/-- Demo price-per-credit map for region aws-us-east-1 (no vps entry). -/
def demoPPC : String → Option ℚ := fun e =>
  if e = "standard" then some 2
  else if e = "enterprise" then some 3
  else if e = "business_critical" then some 4
  else none

/-- Demo egress-rate map. -/
def demoEgress : String → Option ℚ := fun r =>
  if r = "intraRegion" then some 0
  else if r = "interRegion" then some 20
  else if r = "internet" then some 90
  else none

/-- Demo region pricing entry. -/
def demoRP : RegionPricing :=
  { pricePerCredit := some demoPPC, storagePerTBMonth := some 23,
    egressPerTB := some demoEgress }

/-- Demo regions map with a single region. -/
def demoRegions : String → Option RegionPricing := fun r =>
  if r = "aws-us-east-1" then some demoRP else none

/-- Demo serverless pricing section (fully populated). -/
def demoServerless : ServerlessCfg :=
  { snowpipe := some
      { standardEnterprise := some
          { rateCreditsPer1000Files := some (6 / 100), multiplierCompute := some (5 / 4) },
        businessCriticalVPS := some { rateCreditsPerGB := some (37 / 10000) } },
    searchOptimization := some
      { multiplierCompute := some 2, multiplierCloudServices := some 1 },
    serverlessTasks := some
      { multiplierCompute := some (9 / 10), multiplierCloudServices := some 1 },
    tasksOverheadCreditsPerHour := none }

/-- Demo pricing table. -/
def demoPricing : Pricing :=
  { regions := some demoRegions, serverless := some demoServerless }

/-- Demo size-factor ladder 1,2,4,8,16,32,64,128. -/
def demoSF : String → Option ℚ := fun s =>
  if s = "XS" then some 1
  else if s = "S" then some 2
  else if s = "M" then some 4
  else if s = "L" then some 8
  else if s = "XL" then some 16
  else if s = "2XL" then some 32
  else if s = "3XL" then some 64
  else if s = "4XL" then some 128
  else none

/-- Demo credits-per-hour ladder (1.35 per size factor step). -/
def demoWM : String → Option ℚ := fun s =>
  if s = "XS" then some (27 / 20)
  else if s = "S" then some (27 / 10)
  else if s = "M" then some (27 / 5)
  else if s = "L" then some (54 / 5)
  else if s = "XL" then some (108 / 5)
  else if s = "2XL" then some (216 / 5)
  else if s = "3XL" then some (432 / 5)
  else if s = "4XL" then some (864 / 5)
  else none

/-- Demo rules table (cap 4.4, waiver left to its 0.10 default). -/
def demoRules : Rules :=
  { sizeFactor := some demoSF, warehouseCreditsPerHour := some demoWM,
    cloudServices := some { capCreditsPerHour := some (22 / 5), waiverPctOfDailyWH := none } }

/-- Demo rules table whose `cloudServices` section is absent: it passes
stage-1 validation (which only checks `sizeFactor` and
`warehouseCreditsPerHour`) yet makes `compute` hit a raw dict lookup. -/
def demoRulesNoCS : Rules :=
  { sizeFactor := some demoSF, warehouseCreditsPerHour := some demoWM,
    cloudServices := none }

/-- Demo calibration table. -/
def demoCalib : Calib :=
  { workloadFamilies := some (fun f =>
      if f = "elt_batch" then some { k_xs_seconds_per_db2_cpu_second := some (9 / 5) }
      else if f = "reporting" then some { k_xs_seconds_per_db2_cpu_second := some (12 / 5) }
      else none),
    defaultFamily := some "elt_batch" }

/-- Demo workload input (spec scenario A: 72000 CPU-seconds/day, 4h window,
concurrency 2, enterprise in aws-us-east-1, 30 runs/month, 30 TB at rest,
2 TB inter-region egress). -/
def demoInput : InputModel :=
  { db2_cpu_seconds_per_day := 72000, batch_window_hours := 4, concurrency := 2,
    uncompressed_tb_at_rest := 30, frequency_per_month := 30, egress_tb := 2,
    egress_route := "interRegion", region := "aws-us-east-1",
    edition := "enterprise", family := "elt_batch" }

/-- Demo input with the vps edition (the demo region has no vps price). -/
def demoInputVps : InputModel := { demoInput with edition := "vps" }

/-- Demo input with all four numeric drivers set to zero. -/
def demoInputZeros : InputModel :=
  { demoInput with
    db2_cpu_seconds_per_day := 0
    uncompressed_tb_at_rest := 0
    egress_tb := 0
    frequency_per_month := 0 }

/-- Price map whose vps entry is present but zero, with a
business_critical fallback. -/
def demoPPCZeroVps : String → Option ℚ := fun e =>
  if e = "vps" then some 0
  else if e = "business_critical" then some 4
  else none

/-- Price map whose vps entry is present but zero, with no
business_critical entry at all. -/
def demoPPCZeroVpsNoBC : String → Option ℚ := fun e =>
  if e = "vps" then some 0 else none

/-- Region pricing carrying the zero-vps price map. -/
def demoRPZeroVps : RegionPricing :=
  { pricePerCredit := some demoPPCZeroVps, storagePerTBMonth := some 23,
    egressPerTB := some demoEgress }

/-- Regions map for the zero-vps pricing. -/
def demoRegionsZeroVps : String → Option RegionPricing := fun r =>
  if r = "aws-us-east-1" then some demoRPZeroVps else none

/-- Pricing table carrying the zero-vps price map. -/
def demoPricingZeroVps : Pricing :=
  { regions := some demoRegionsZeroVps, serverless := some demoServerless }

/-- Serverless section whose snowpipe sub-configuration is absent. -/
def demoServerlessNoSnowpipe : ServerlessCfg :=
  { demoServerless with snowpipe := none }

/-- Pricing table whose serverless section exists but has no snowpipe
sub-configuration. -/
def demoPricingNoSnowpipe : Pricing :=
  { regions := some demoRegions, serverless := some demoServerlessNoSnowpipe }

/-- Demo input exercising the snowpipe defaults (files, compute hours and
GB per day all set). -/
def demoInputSnowpipe : InputModel :=
  { demoInput with
    snowpipe_files_per_day := 2000
    snowpipe_compute_hours_per_day := 4
    snowpipe_uncompressed_gb_per_day := 100 }

/-! ## Helper lemmas -/

/-- Bind on a successful `Except` computation. -/
theorem ok_bind {α β : Type} (a : α) (f : α → Except PyErr β) :
    (Except.ok a >>= f) = f a := rfl

/-- Bind on a failed `Except` computation. -/
theorem error_bind {α β : Type} (e : PyErr) (f : α → Except PyErr β) :
    ((Except.error e : Except PyErr α) >>= f) = Except.error e := rfl

/-- Inversion for a successful `Except` bind. -/
theorem bind_ok_elim {α β : Type} {x : Except PyErr α} {f : α → Except PyErr β}
    {r : β} (h : (x >>= f) = Except.ok r) :
    ∃ a, x = Except.ok a ∧ f a = Except.ok r := by
  cases x with
  | ok a => exact ⟨a, rfl, h⟩
  | error e => exact Except.noConfusion h

/-- Inversion principle for a successful `compute` run: every fallible
step succeeded and the result is the pure assembly of their values. -/
theorem compute_ok_elim {inp : InputModel} {pricing : Pricing} {rules : Rules}
    {calib : Calib} {res : ResultModel}
    (h : compute inp pricing rules calib = Except.ok res) :
    ∃ rp ppc wfm maps k size cph f whb cswp sl price,
      getRegionPricing pricing inp.region = Except.ok rp ∧
      getPricePerCredit rp inp.region = Except.ok ppc ∧
      getWorkloadFamilies calib = Except.ok wfm ∧
      getRuleMaps rules = Except.ok maps ∧
      resolveK wfm calib.defaultFamily inp.family = Except.ok k ∧
      pick_size (inp.db2_cpu_seconds_per_day * k / 3600) inp.batch_window_hours
        inp.concurrency maps.1 = Except.ok size ∧
      lookupNum maps.2 size = Except.ok cph ∧
      lookupNum maps.1 size = Except.ok f ∧
      pyDiv (inp.db2_cpu_seconds_per_day * k / 3600 *
        ((max 1 inp.concurrency : ℤ) : ℚ)) f = Except.ok whb ∧
      getCSParams rules = Except.ok cswp ∧
      getServerless pricing = Except.ok sl ∧
      resolvePrice ppc inp.edition inp.region = Except.ok price ∧
      res = assemble inp rp k size cph whb cswp.1 cswp.2 sl price := by
  unfold compute at h
  obtain ⟨rp, h1, h⟩ := bind_ok_elim h
  obtain ⟨ppc, h2, h⟩ := bind_ok_elim h
  obtain ⟨wfm, h3, h⟩ := bind_ok_elim h
  obtain ⟨maps, h4, h⟩ := bind_ok_elim h
  obtain ⟨k, h5, h⟩ := bind_ok_elim h
  obtain ⟨size, h6, h⟩ := bind_ok_elim h
  obtain ⟨cph, h7, h⟩ := bind_ok_elim h
  obtain ⟨f, h8, h⟩ := bind_ok_elim h
  obtain ⟨whb, h9, h⟩ := bind_ok_elim h
  obtain ⟨cswp, h10, h⟩ := bind_ok_elim h
  obtain ⟨sl, h11, h⟩ := bind_ok_elim h
  obtain ⟨price, h12, h⟩ := bind_ok_elim h
  exact ⟨rp, ppc, wfm, maps, k, size, cph, f, whb, cswp, sl, price,
    h1, h2, h3, h4, h5, h6, h7, h8, h9, h10, h11, h12,
    (Except.ok.inj h).symm⟩

/-- Forward principle: when every fallible step succeeds, `compute`
returns the assembly of their values. -/
theorem compute_eq_ok {inp : InputModel} {pricing : Pricing} {rules : Rules}
    {calib : Calib} {rp : RegionPricing} {ppc : String → Option ℚ}
    {wfm : String → Option FamilyCfg}
    {maps : (String → Option ℚ) × (String → Option ℚ)} {k : ℚ} {size : String}
    {cph f whb : ℚ} {cswp : ℚ × ℚ} {sl : ServerlessCfg} {price : ℚ}
    (h1 : getRegionPricing pricing inp.region = Except.ok rp)
    (h2 : getPricePerCredit rp inp.region = Except.ok ppc)
    (h3 : getWorkloadFamilies calib = Except.ok wfm)
    (h4 : getRuleMaps rules = Except.ok maps)
    (h5 : resolveK wfm calib.defaultFamily inp.family = Except.ok k)
    (h6 : pick_size (inp.db2_cpu_seconds_per_day * k / 3600) inp.batch_window_hours
      inp.concurrency maps.1 = Except.ok size)
    (h7 : lookupNum maps.2 size = Except.ok cph)
    (h8 : lookupNum maps.1 size = Except.ok f)
    (h9 : pyDiv (inp.db2_cpu_seconds_per_day * k / 3600 *
      ((max 1 inp.concurrency : ℤ) : ℚ)) f = Except.ok whb)
    (h10 : getCSParams rules = Except.ok cswp)
    (h11 : getServerless pricing = Except.ok sl)
    (h12 : resolvePrice ppc inp.edition inp.region = Except.ok price) :
    compute inp pricing rules calib =
      Except.ok (assemble inp rp k size cph whb cswp.1 cswp.2 sl price) := by
  unfold compute
  rw [h1, ok_bind, h2, ok_bind, h3, ok_bind, h4, ok_bind, h5, ok_bind, h6, ok_bind,
    h7, ok_bind, h8, ok_bind, h9, ok_bind, h10, ok_bind, h11, ok_bind, h12, ok_bind]

/-- When every ladder entry has a nonzero factor, the sizer loop is the
first-fit search: it returns the first list element satisfying `qualB`,
and `"4XL"` when none does. -/
theorem pickSizeAux_char (need window : ℚ) (sf : String → Option ℚ) :
    ∀ l : List String, (∀ s ∈ l, ∃ q, sf s = some q ∧ q ≠ 0) →
      pickSizeAux need window sf l =
        Except.ok ((l.find? (qualB sf need window)).getD "4XL")
  | [], _ => rfl
  | s :: rest, h => by
    obtain ⟨q, hq, hq0⟩ := h s (List.mem_cons_self s rest)
    have hrest := fun t ht => h t (List.mem_cons_of_mem s ht)
    by_cases hle : need / q ≤ window
    · have hqb : qualB sf need window s = true := by
        simp [qualB, hq, hle]
      simp [pickSizeAux, hq, hq0, hle, List.find?, hqb]
    · have hqb : qualB sf need window s = false := by
        simp [qualB, hq, hle]
      simp only [pickSizeAux, hq, if_neg hq0, if_neg hle, List.find?, hqb]
      exact pickSizeAux_char need window sf rest hrest

/-- The sizer's result is always a ladder element (possibly the `"4XL"`
fallback, which is itself the ladder's last element). -/
theorem pick_size_mem (xs_hours window_h : ℚ) (concurrency : ℤ)
    (sf : String → Option ℚ)
    (h : ∀ s ∈ sizeOrder, ∃ q, sf s = some q ∧ q ≠ 0) :
    ∃ s, pick_size xs_hours window_h concurrency sf = Except.ok s ∧ s ∈ sizeOrder := by
  rw [pick_size, pickSizeAux_char _ _ _ _ h]
  refine ⟨_, rfl, ?_⟩
  cases hf : (sizeOrder.find? (qualB sf
      (xs_hours * ((max 1 concurrency : ℤ) : ℚ)) window_h)) with
  | none => simp [sizeOrder]
  | some x =>
    simp only [Option.getD_some]
    exact List.mem_of_find?_eq_some hf

/-- First-satisfying index is antitone in the strength of the predicate:
if every element (of the list) satisfying `p₂` also satisfies `p₁`, the
first `p₁`-index comes no later than the first `p₂`-index. -/
theorem findIdx_mono {p₁ p₂ : String → Bool} :
    ∀ l : List String, (∀ x ∈ l, p₂ x = true → p₁ x = true) →
      l.findIdx p₁ ≤ l.findIdx p₂
  | [], _ => le_refl 0
  | a :: t, h => by
    rw [List.findIdx_cons, List.findIdx_cons]
    cases hq : p₂ a with
    | true =>
      have hp := h a (List.mem_cons_self a t) hq
      simp [hp, hq]
    | false =>
      cases hp : p₁ a with
      | true => simp [hp, hq]
      | false =>
        simp only [cond_false]
        exact Nat.succ_le_succ
          (findIdx_mono t (fun x hx => h x (List.mem_cons_of_mem a hx)))

/-- Ladder position of the first-fit result: the first satisfying index,
capped at the top position 7. -/
theorem sizePos_find (p : String → Bool) :
    sizePos ((sizeOrder.find? p).getD "4XL") = min (sizeOrder.findIdx p) 7 := by
  simp only [sizeOrder]
  cases h1 : p "XS" with
  | true => simp [List.find?, List.findIdx_cons, h1, sizePos]
  | false => cases h2 : p "S" with
    | true => simp [List.find?, List.findIdx_cons, h1, h2, sizePos]
    | false => cases h3 : p "M" with
      | true => simp [List.find?, List.findIdx_cons, h1, h2, h3, sizePos]
      | false => cases h4 : p "L" with
        | true => simp [List.find?, List.findIdx_cons, h1, h2, h3, h4, sizePos]
        | false => cases h5 : p "XL" with
          | true => simp [List.find?, List.findIdx_cons, h1, h2, h3, h4, h5, sizePos]
          | false => cases h6 : p "2XL" with
            | true => simp [List.find?, List.findIdx_cons, h1, h2, h3, h4, h5, h6, sizePos]
            | false => cases h7 : p "3XL" with
              | true => simp [List.find?, List.findIdx_cons, h1, h2, h3, h4, h5, h6, h7, sizePos]
              | false => cases h8 : p "4XL" with
                | true => simp [List.find?, List.findIdx_cons, h1, h2, h3, h4, h5, h6, h7, h8, sizePos]
                | false => simp [List.find?, List.findIdx_cons, h1, h2, h3, h4, h5, h6, h7, h8, sizePos]

/-- Stage-8 price resolution always succeeds when the region has a
`business_critical` price entry. -/
theorem resolvePrice_ok_of_bc {ppc : String → Option ℚ} {p : ℚ} (ed rg : String)
    (hbc : ppc "business_critical" = some p) :
    ∃ v, resolvePrice ppc ed rg = Except.ok v := by
  unfold resolvePrice
  rw [if_neg (by simp [hbc])]
  cases hek : ppc (editionKey ppc ed) with
  | none => exact ⟨p, by simp [hbc]⟩
  | some v =>
    by_cases hv : v = 0
    · exact ⟨p, by simp [hv, hbc]⟩
    · exact ⟨v, by simp [hv]⟩

/-- When the four tables satisfy the full structural contract (region and
price map present, workload-family map with a resolvable k-factor, both
rule maps present with a nonzero factor for the whole ladder, a
cloud-services section, a serverless section, and a business_critical
price), `compute` succeeds, and its result is the assembly of the
resolved values. -/
theorem compute_total_of_shape
    {inp : InputModel} {pricing : Pricing} {rules : Rules} {calib : Calib}
    {rmap : String → Option RegionPricing} {rp : RegionPricing}
    {ppc : String → Option ℚ} {wfm : String → Option FamilyCfg}
    {sfm wm : String → Option ℚ} {k : ℚ} {cswp : ℚ × ℚ} {sl : ServerlessCfg}
    {p : ℚ}
    (hr : pricing.regions = some rmap)
    (hreg : rmap inp.region = some rp)
    (hppc : rp.pricePerCredit = some ppc)
    (hwf : calib.workloadFamilies = some wfm)
    (hsf : rules.sizeFactor = some sfm)
    (hwm : rules.warehouseCreditsPerHour = some wm)
    (hk : resolveK wfm calib.defaultFamily inp.family = Except.ok k)
    (hlad : ∀ s ∈ sizeOrder, ∃ q, sfm s = some q ∧ q ≠ 0)
    (hwml : ∀ s ∈ sizeOrder, (wm s).isSome)
    (hcsp : getCSParams rules = Except.ok cswp)
    (hsl : pricing.serverless = some sl)
    (hbc : ppc "business_critical" = some p) :
    ∃ size cph f whb price,
      compute inp pricing rules calib =
        Except.ok (assemble inp rp k size cph whb cswp.1 cswp.2 sl price) ∧
      size ∈ sizeOrder ∧ sfm size = some f ∧ f ≠ 0 ∧ wm size = some cph ∧
      whb = inp.db2_cpu_seconds_per_day * k / 3600 *
        ((max 1 inp.concurrency : ℤ) : ℚ) / f ∧
      resolvePrice ppc inp.edition inp.region = Except.ok price := by
  obtain ⟨size, hsz, hmem⟩ := pick_size_mem
    (inp.db2_cpu_seconds_per_day * k / 3600) inp.batch_window_hours
    inp.concurrency sfm hlad
  obtain ⟨f, hf, hf0⟩ := hlad size hmem
  obtain ⟨cph, hcph⟩ := Option.isSome_iff_exists.mp (hwml size hmem)
  obtain ⟨price, hpr⟩ := resolvePrice_ok_of_bc inp.edition inp.region hbc
  refine ⟨size, cph, f,
    inp.db2_cpu_seconds_per_day * k / 3600 * ((max 1 inp.concurrency : ℤ) : ℚ) / f,
    price, ?_, hmem, hf, hf0, hcph, rfl, hpr⟩
  exact @compute_eq_ok inp pricing rules calib rp ppc wfm (sfm, wm) k size cph f
    (inp.db2_cpu_seconds_per_day * k / 3600 * ((max 1 inp.concurrency : ℤ) : ℚ) / f)
    cswp sl price
    (by simp [getRegionPricing, hr, hreg])
    (by simp [getPricePerCredit, hppc])
    (by simp [getWorkloadFamilies, hwf])
    (by simp [getRuleMaps, hsf, hwm])
    hk hsz
    (by simp [lookupNum, hcph])
    (by simp [lookupNum, hf])
    (by simp [pyDiv, hf0])
    hcsp
    (by simp [getServerless, hsl])
    hpr

/-! ## Claim theorems -/

/-- C2: for xs_hours ≥ 0, window_h > 0 and a table defining positive
factors for the full ladder, `pick_size` returns the first size s in the
fixed ascending ladder for which (xs_hours × max(1, concurrency)) ÷
size_factor[s] ≤ window_h, and returns the largest size "4XL" instead of
failing when no size qualifies. -/
theorem c2_pick_size_first_fit (xs_hours window_h : ℚ) (concurrency : ℤ)
    (size_factor : String → Option ℚ)
    (hx : 0 ≤ xs_hours) (hw : 0 < window_h)
    (hsf : ∀ s ∈ sizeOrder, ∃ q, size_factor s = some q ∧ 0 < q) :
    pick_size xs_hours window_h concurrency size_factor =
      Except.ok ((sizeOrder.find? (qualB size_factor
        (xs_hours * ((max 1 concurrency : ℤ) : ℚ)) window_h)).getD "4XL") := by
  rw [pick_size]
  exact pickSizeAux_char _ _ _ _ (fun s hs =>
    let ⟨q, hq, hq0⟩ := hsf s hs
    ⟨q, hq, ne_of_gt hq0⟩)

/-- Witness for C2 on the demo ladder: 36 XS-hours, 4h window,
concurrency 2. -/
theorem c2_pick_size_first_fit_witness :
    pick_size 36 4 2 demoSF =
      Except.ok ((sizeOrder.find? (qualB demoSF
        (36 * ((max 1 2 : ℤ) : ℚ)) 4)).getD "4XL") :=
  c2_pick_size_first_fit 36 4 2 demoSF (by norm_num) (by norm_num)
    (by
      intro s hs
      simp only [sizeOrder, List.mem_cons, List.not_mem_nil, or_false] at hs
      rcases hs with rfl | rfl | rfl | rfl | rfl | rfl | rfl | rfl <;>
        exact ⟨_, rfl, by norm_num⟩)

/-- C7: with xs_hours ≥ 0, a positive window and positive factors on the
full ladder, increasing concurrency never decreases the ladder position
of the chosen size. -/
theorem c7_concurrency_monotone (xs_hours window_h : ℚ) (c1 c2 : ℤ)
    (size_factor : String → Option ℚ)
    (hx : 0 ≤ xs_hours) (hw : 0 < window_h) (hc : c1 ≤ c2)
    (hsf : ∀ s ∈ sizeOrder, ∃ q, size_factor s = some q ∧ 0 < q) :
    ∀ s1 s2, pick_size xs_hours window_h c1 size_factor = Except.ok s1 →
      pick_size xs_hours window_h c2 size_factor = Except.ok s2 →
      sizePos s1 ≤ sizePos s2 := by
  intro s1 s2 h1 h2
  rw [c2_pick_size_first_fit xs_hours window_h c1 size_factor hx hw hsf] at h1
  rw [c2_pick_size_first_fit xs_hours window_h c2 size_factor hx hw hsf] at h2
  have hs1 := (Except.ok.inj h1).symm
  have hs2 := (Except.ok.inj h2).symm
  subst hs1; subst hs2
  rw [sizePos_find, sizePos_find]
  refine min_le_min ?_ (le_refl 7)
  apply findIdx_mono
  intro x hxm hq2
  have hmax : ((max 1 c1 : ℤ) : ℚ) ≤ ((max 1 c2 : ℤ) : ℚ) := by
    exact_mod_cast max_le_max (le_refl (1 : ℤ)) hc
  have hneed : xs_hours * ((max 1 c1 : ℤ) : ℚ) ≤ xs_hours * ((max 1 c2 : ℤ) : ℚ) :=
    mul_le_mul_of_nonneg_left hmax hx
  obtain ⟨q, hq, hq0⟩ := hsf x hxm
  rw [qualB, hq] at hq2 ⊢
  have hle2 : xs_hours * ((max 1 c2 : ℤ) : ℚ) / q ≤ window_h := of_decide_eq_true hq2
  have hle1 : xs_hours * ((max 1 c1 : ℤ) : ℚ) / q ≤ window_h :=
    le_trans (by exact div_le_div_of_nonneg_right hneed (le_of_lt hq0)) hle2
  exact decide_eq_true hle1

/-- Witness for C7: concurrency 1 versus concurrency 8 on the demo
ladder. -/
theorem c7_concurrency_monotone_witness :
    sizePos "XL" ≤ sizePos "4XL" :=
  c7_concurrency_monotone 36 4 1 8 demoSF (by norm_num) (by norm_num) (by norm_num)
    (by
      intro s hs
      simp only [sizeOrder, List.mem_cons, List.not_mem_nil, or_false] at hs
      rcases hs with rfl | rfl | rfl | rfl | rfl | rfl | rfl | rfl <;>
        exact ⟨_, rfl, by norm_num⟩)
    "XL" "4XL"
    (by
      simp only [pick_size, pickSizeAux, sizeOrder, demoSF, String.reduceEq, reduceIte]
      try norm_num
      try simp
      try norm_num)
    (by
      simp only [pick_size, pickSizeAux, sizeOrder, demoSF, String.reduceEq, reduceIte]
      try norm_num
      try simp
      try norm_num)

/-- C1 counterexample: concrete tables that pass all stage-1 validation
checks (region present with a price map, workloadFamilies present,
sizeFactor and warehouseCreditsPerHour present) but whose rules table has
no `cloudServices` section.  `compute` fails with a generic missing-key
error — not one of the stage-1 / stage-8 configuration `ValueError`s —
refuting the claim that every other stage is total over inputs that pass
stage-1 validation. -/
theorem c1_counterexample :
    compute demoInput demoPricing demoRulesNoCS demoCalib =
      Except.error (PyErr.keyError "cloudServices") := by
  simp only [compute, getRegionPricing, getPricePerCredit, getWorkloadFamilies, getRuleMaps,
    resolveK, pick_size, pickSizeAux, sizeOrder, lookupNum, pyDiv, getCSParams, getServerless,
    resolvePrice, editionKey, demoInput, demoPricing, demoRulesNoCS, demoCalib, demoRegions,
    demoRP, demoPPC, demoSF, demoWM, Bind.bind, Except.bind, Option.bind, Option.isSome,
    String.reduceEq, reduceIte, Option.getD]
  try norm_num
  try simp
  try norm_num

/-- C1 amended: the failures `compute` raises are configuration
`ValueError`s only over tables satisfying the full structural contract,
not merely stage-1 validation; stage-1-validated tables can still produce
generic missing-key errors (see the counterexample).  Over tables with
the full shape — a cloud-services section, a serverless section, a
resolvable k-factor, a full nonzero size ladder in both rule maps, and a
business_critical price — `compute` cannot fail at all. -/
theorem c1_amended_totality
    {inp : InputModel} {pricing : Pricing} {rules : Rules} {calib : Calib}
    {rmap : String → Option RegionPricing} {rp : RegionPricing}
    {ppc : String → Option ℚ} {wfm : String → Option FamilyCfg}
    {sfm wm : String → Option ℚ} {k : ℚ} {cswp : ℚ × ℚ} {sl : ServerlessCfg}
    {p : ℚ}
    (hr : pricing.regions = some rmap)
    (hreg : rmap inp.region = some rp)
    (hppc : rp.pricePerCredit = some ppc)
    (hwf : calib.workloadFamilies = some wfm)
    (hsf : rules.sizeFactor = some sfm)
    (hwm : rules.warehouseCreditsPerHour = some wm)
    (hk : resolveK wfm calib.defaultFamily inp.family = Except.ok k)
    (hlad : ∀ s ∈ sizeOrder, ∃ q, sfm s = some q ∧ q ≠ 0)
    (hwml : ∀ s ∈ sizeOrder, (wm s).isSome)
    (hcsp : getCSParams rules = Except.ok cswp)
    (hsl : pricing.serverless = some sl)
    (hbc : ppc "business_critical" = some p) :
    ∃ res, compute inp pricing rules calib = Except.ok res := by
  obtain ⟨size, cph, f, whb, price, hok, -⟩ :=
    compute_total_of_shape hr hreg hppc hwf hsf hwm hk hlad hwml hcsp hsl hbc
  exact ⟨_, hok⟩

/-- Witness for the amended C1 on the fully-shaped demo tables. -/
theorem c1_amended_totality_witness :
    ∃ res, compute demoInput demoPricing demoRules demoCalib = Except.ok res :=
  c1_amended_totality rfl rfl rfl rfl rfl rfl rfl
    (by
      intro s hs
      simp only [sizeOrder, List.mem_cons, List.not_mem_nil, or_false] at hs
      rcases hs with rfl | rfl | rfl | rfl | rfl | rfl | rfl | rfl <;>
        exact ⟨_, rfl, by norm_num⟩)
    (by
      intro s hs
      simp only [sizeOrder, List.mem_cons, List.not_mem_nil, or_false] at hs
      rcases hs with rfl | rfl | rfl | rfl | rfl | rfl | rfl | rfl <;> rfl)
    rfl rfl rfl

/-- C3: for every successful `compute` call, cloud-services credits/day
equal min(capCreditsPerHour × warehouse-hours/day, waiverPct ×
warehouse-credits/day) with waiverPct defaulting to 0.10; consequently
(for a non-negative cap and warehouse-hours, as produced by non-negative
inputs) csCreditsDay is at most both terms and is zero whenever
warehouse-credits/day is zero. -/
theorem c3_cloud_services_min
    {inp : InputModel} {pricing : Pricing} {rules : Rules} {calib : Calib}
    {res : ResultModel} {csCfg : CloudServicesCfg} {cap : ℚ}
    (hok : compute inp pricing rules calib = Except.ok res)
    (hcs : rules.cloudServices = some csCfg)
    (hcap : csCfg.capCreditsPerHour = some cap)
    (hcap0 : 0 ≤ cap) (hwh0 : 0 ≤ res.selection.whHoursDay) :
    res.daily.csCreditsDay = min (cap * res.selection.whHoursDay)
      ((csCfg.waiverPctOfDailyWH.getD (1 / 10)) * res.daily.whCreditsDay) ∧
    res.daily.csCreditsDay ≤ cap * res.selection.whHoursDay ∧
    res.daily.csCreditsDay ≤
      (csCfg.waiverPctOfDailyWH.getD (1 / 10)) * res.daily.whCreditsDay ∧
    (res.daily.whCreditsDay = 0 → res.daily.csCreditsDay = 0) := by
  obtain ⟨rp, ppc, wfm, maps, k, size, cph, f, whb, cswp, sl, price,
    h1, h2, h3, h4, h5, h6, h7, h8, h9, h10, h11, h12, hres⟩ := compute_ok_elim hok
  have hcsp : getCSParams rules =
      Except.ok (cap, csCfg.waiverPctOfDailyWH.getD (1 / 10)) := by
    simp [getCSParams, hcs, hcap, Bind.bind, Except.bind]
  rw [hcsp] at h10
  have hpair := Except.ok.inj h10
  subst hpair
  subst hres
  simp only [assemble] at hwh0
  refine ⟨by simp only [assemble], ?_, ?_, ?_⟩
  · simp only [assemble]
    exact min_le_left _ _
  · simp only [assemble]
    exact min_le_right _ _
  · intro h0
    simp only [assemble] at h0 ⊢
    rw [h0, mul_zero]
    exact min_eq_right (mul_nonneg hcap0 hwh0)

/-- Witness for C3 on the demo scenario (cap 4.4, default waiver,
warehouse hours 2.25/day). -/
theorem c3_cloud_services_min_witness :
    letI res := assemble demoInput demoRP (9 / 5) "2XL" (216 / 5) (9 / 4) (22 / 5) (1 / 10)
      demoServerless 3
    res.daily.csCreditsDay = min ((22 / 5) * res.selection.whHoursDay)
      ((({ capCreditsPerHour := some (22 / 5), waiverPctOfDailyWH := none } :
        CloudServicesCfg).waiverPctOfDailyWH.getD (1 / 10)) * res.daily.whCreditsDay) ∧
    res.daily.csCreditsDay ≤ (22 / 5) * res.selection.whHoursDay ∧
    res.daily.csCreditsDay ≤
      (({ capCreditsPerHour := some (22 / 5), waiverPctOfDailyWH := none } :
        CloudServicesCfg).waiverPctOfDailyWH.getD (1 / 10)) * res.daily.whCreditsDay ∧
    (res.daily.whCreditsDay = 0 → res.daily.csCreditsDay = 0) :=
  @c3_cloud_services_min demoInput demoPricing demoRules demoCalib
    (assemble demoInput demoRP (9 / 5) "2XL" (216 / 5) (9 / 4) (22 / 5) (1 / 10)
      demoServerless 3)
    { capCreditsPerHour := some (22 / 5), waiverPctOfDailyWH := none } (22 / 5)
    (by
      simp only [compute, getRegionPricing, getPricePerCredit, getWorkloadFamilies, getRuleMaps,
        resolveK, pick_size, pickSizeAux, sizeOrder, lookupNum, pyDiv, getCSParams, getServerless,
        resolvePrice, editionKey, demoInput, demoPricing, demoRules, demoCalib, demoRegions,
        demoRP, demoPPC, demoSF, demoWM, Bind.bind, Except.bind, Option.bind, Option.isSome,
        String.reduceEq, reduceIte, Option.getD]
      try norm_num
      try simp
      try norm_num)
    rfl rfl (by norm_num)
    (by
      simp only [assemble, demoInput, String.reduceEq, reduceIte]
      norm_num)

/-- C4: for every successful `compute` call, the grand total is exactly
compute dollars + storage dollars + transfer dollars, and storage dollars
decompose exactly into the three per-category products with the region's
single storagePerTBMonth rate. -/
theorem c4_grand_total_decomposition
    {inp : InputModel} {pricing : Pricing} {rules : Rules} {calib : Calib}
    {res : ResultModel} {rmap : String → Option RegionPricing} {rp : RegionPricing}
    (hok : compute inp pricing rules calib = Except.ok res)
    (hr : pricing.regions = some rmap)
    (hreg : rmap inp.region = some rp) :
    res.monthly.grandTotal = res.monthly.dollarsCompute +
      res.monthly.dollarsStorage + res.monthly.dollarsTransfer ∧
    res.monthly.dollarsStorage = res.monthly.dollarsStorageRegular +
      res.monthly.dollarsStorageTimeTravel + res.monthly.dollarsStorageFailsafe ∧
    res.monthly.dollarsStorageRegular =
      inp.uncompressed_tb_at_rest * rp.storagePerTBMonth.getD 0 ∧
    res.monthly.dollarsStorageTimeTravel =
      inp.time_travel_tb * rp.storagePerTBMonth.getD 0 ∧
    res.monthly.dollarsStorageFailsafe =
      inp.failsafe_tb * rp.storagePerTBMonth.getD 0 := by
  obtain ⟨rp', ppc, wfm, maps, k, size, cph, f, whb, cswp, sl, price,
    h1, h2, h3, h4, h5, h6, h7, h8, h9, h10, h11, h12, hres⟩ := compute_ok_elim hok
  have h1' : getRegionPricing pricing inp.region = Except.ok rp := by
    simp [getRegionPricing, hr, hreg]
  rw [h1'] at h1
  have hrp := Except.ok.inj h1
  subst hrp
  subst hres
  refine ⟨?_, ?_, ?_, ?_, ?_⟩ <;> simp only [assemble]

/-- Witness for C4 on the demo scenario. -/
theorem c4_grand_total_decomposition_witness :
    letI res := assemble demoInput demoRP (9 / 5) "2XL" (216 / 5) (9 / 4) (22 / 5) (1 / 10)
      demoServerless 3
    res.monthly.grandTotal = res.monthly.dollarsCompute +
      res.monthly.dollarsStorage + res.monthly.dollarsTransfer ∧
    res.monthly.dollarsStorage = res.monthly.dollarsStorageRegular +
      res.monthly.dollarsStorageTimeTravel + res.monthly.dollarsStorageFailsafe ∧
    res.monthly.dollarsStorageRegular =
      demoInput.uncompressed_tb_at_rest * demoRP.storagePerTBMonth.getD 0 ∧
    res.monthly.dollarsStorageTimeTravel =
      demoInput.time_travel_tb * demoRP.storagePerTBMonth.getD 0 ∧
    res.monthly.dollarsStorageFailsafe =
      demoInput.failsafe_tb * demoRP.storagePerTBMonth.getD 0 :=
  @c4_grand_total_decomposition demoInput demoPricing demoRules demoCalib
    (assemble demoInput demoRP (9 / 5) "2XL" (216 / 5) (9 / 4) (22 / 5) (1 / 10)
      demoServerless 3)
    demoRegions demoRP
    (by
      simp only [compute, getRegionPricing, getPricePerCredit, getWorkloadFamilies, getRuleMaps,
        resolveK, pick_size, pickSizeAux, sizeOrder, lookupNum, pyDiv, getCSParams, getServerless,
        resolvePrice, editionKey, demoInput, demoPricing, demoRules, demoCalib, demoRegions,
        demoRP, demoPPC, demoSF, demoWM, Bind.bind, Except.bind, Option.bind, Option.isSome,
        String.reduceEq, reduceIte, Option.getD]
      try norm_num
      try simp
      try norm_num)
    rfl rfl

/-- C5: switching a standard-mode input to multi_cluster with cluster
count n scales warehouse-credits/day and warehouse-hours/day by exactly
n, leaves serverless credits unchanged, prices the scaled credits at the
same per-credit rate, and (for n ≥ 0) scales cloud-services credits by n
and feeds the n-scaled bases into the monthly totals; n = 3 gives exactly
3× the single-cluster base. -/
theorem c5_multi_cluster_scaling
    {inp : InputModel} {pricing : Pricing} {rules : Rules} {calib : Calib}
    {r1 : ResultModel} (n : ℤ)
    (hstd : inp.warehouse_type = "standard")
    (h1 : compute inp pricing rules calib = Except.ok r1) :
    ∃ r2, compute { inp with warehouse_type := "multi_cluster", cluster_count := n }
        pricing rules calib = Except.ok r2 ∧
      r2.daily.whCreditsDay = (n : ℚ) * r1.daily.whCreditsDay ∧
      r2.selection.whHoursDay = (n : ℚ) * r1.selection.whHoursDay ∧
      r2.daily.serverlessCreditsDay = r1.daily.serverlessCreditsDay ∧
      r2.monthly.dollarsCompute * r1.monthly.credits =
        r1.monthly.dollarsCompute * r2.monthly.credits ∧
      ((0 : ℚ) ≤ (n : ℚ) →
        r2.daily.csCreditsDay = (n : ℚ) * r1.daily.csCreditsDay ∧
        r2.monthly.credits =
          ((n : ℚ) * (r1.daily.whCreditsDay + r1.daily.csCreditsDay) +
            r1.daily.serverlessCreditsDay) * (inp.frequency_per_month : ℚ)) := by
  obtain ⟨rp, ppc, wfm, maps, k, size, cph, f, whb, cswp, sl, price,
    g1, g2, g3, g4, g5, g6, g7, g8, g9, g10, g11, g12, hres⟩ := compute_ok_elim h1
  subst hres
  refine ⟨assemble { inp with warehouse_type := "multi_cluster", cluster_count := n }
    rp k size cph whb cswp.1 cswp.2 sl price,
    compute_eq_ok g1 g2 g3 g4 g5 g6 g7 g8 g9 g10 g11 g12, ?_, ?_, ?_, ?_, ?_⟩
  · simp only [assemble, hstd, String.reduceEq, reduceIte]
    ring
  · simp only [assemble, hstd, String.reduceEq, reduceIte]
    ring
  · rfl
  · simp only [assemble, hstd, String.reduceEq, reduceIte]
    ring
  · intro hn
    constructor
    · simp only [assemble, hstd, String.reduceEq, reduceIte]
      rw [mul_min_of_nonneg _ _ hn]
      congr 1 <;> ring
    · simp only [assemble, hstd, String.reduceEq, reduceIte]
      have hsv : serverlessCredits sl
          { inp with warehouse_type := "multi_cluster", cluster_count := n } =
          serverlessCredits sl inp := rfl
      rw [hsv, mul_add, mul_min_of_nonneg _ _ hn]
      ring_nf

/-- Witness for C5: cluster count 3 on the demo scenario. -/
theorem c5_multi_cluster_scaling_witness :
    letI r1 := assemble demoInput demoRP (9 / 5) "2XL" (216 / 5) (9 / 4) (22 / 5) (1 / 10)
      demoServerless 3
    ∃ r2, compute { demoInput with warehouse_type := "multi_cluster", cluster_count := 3 }
        demoPricing demoRules demoCalib = Except.ok r2 ∧
      r2.daily.whCreditsDay = ((3 : ℤ) : ℚ) * r1.daily.whCreditsDay ∧
      r2.selection.whHoursDay = ((3 : ℤ) : ℚ) * r1.selection.whHoursDay ∧
      r2.daily.serverlessCreditsDay = r1.daily.serverlessCreditsDay ∧
      r2.monthly.dollarsCompute * r1.monthly.credits =
        r1.monthly.dollarsCompute * r2.monthly.credits ∧
      ((0 : ℚ) ≤ ((3 : ℤ) : ℚ) →
        r2.daily.csCreditsDay = ((3 : ℤ) : ℚ) * r1.daily.csCreditsDay ∧
        r2.monthly.credits =
          (((3 : ℤ) : ℚ) * (r1.daily.whCreditsDay + r1.daily.csCreditsDay) +
            r1.daily.serverlessCreditsDay) * (demoInput.frequency_per_month : ℚ)) :=
  @c5_multi_cluster_scaling demoInput demoPricing demoRules demoCalib
    (assemble demoInput demoRP (9 / 5) "2XL" (216 / 5) (9 / 4) (22 / 5) (1 / 10)
      demoServerless 3) 3 rfl
    (by
      simp only [compute, getRegionPricing, getPricePerCredit, getWorkloadFamilies, getRuleMaps,
        resolveK, pick_size, pickSizeAux, sizeOrder, lookupNum, pyDiv, getCSParams, getServerless,
        resolvePrice, editionKey, demoInput, demoPricing, demoRules, demoCalib, demoRegions,
        demoRP, demoPPC, demoSF, demoWM, Bind.bind, Except.bind, Option.bind, Option.isSome,
        String.reduceEq, reduceIte, Option.getD]
      try norm_num
      try simp
      try norm_num)

/-- C6: with edition vps and a region price map lacking a vps entry but
carrying a business_critical entry p, stage-8 resolution substitutes the
business_critical key and succeeds with price p (so compute dollars equal
monthly credits × p), and stage 8 raises its configuration `ValueError`
exactly when neither the resolved edition key nor business_critical is in
the price map. -/
theorem c6_vps_fallback
    {inp : InputModel} {pricing : Pricing} {rules : Rules} {calib : Calib}
    {rmap : String → Option RegionPricing} {rp : RegionPricing}
    {ppc : String → Option ℚ} {p : ℚ}
    (he : inp.edition = "vps")
    (hr : pricing.regions = some rmap)
    (hreg : rmap inp.region = some rp)
    (hppc : rp.pricePerCredit = some ppc)
    (hv : ppc "vps" = none)
    (hb : ppc "business_critical" = some p) :
    resolvePrice ppc inp.edition inp.region = Except.ok p ∧
    (∀ res, compute inp pricing rules calib = Except.ok res →
      res.monthly.dollarsCompute = res.monthly.credits * p) ∧
    (∀ (q : String → Option ℚ) (ed rg : String),
      (∃ msg, resolvePrice q ed rg = Except.error (PyErr.valueError msg)) ↔
      (q (editionKey q ed) = none ∧ q "business_critical" = none)) := by
  have hres1 : resolvePrice ppc inp.edition inp.region = Except.ok p := by
    rw [resolvePrice, editionKey, he]
    simp [hv, hb, ite_self]
  refine ⟨hres1, ?_, ?_⟩
  · intro res hok
    obtain ⟨rp', ppc', wfm, maps, k, size, cph, f, whb, cswp, sl, price,
      g1, g2, g3, g4, g5, g6, g7, g8, g9, g10, g11, g12, hres⟩ := compute_ok_elim hok
    have g1' : getRegionPricing pricing inp.region = Except.ok rp := by
      simp [getRegionPricing, hr, hreg]
    rw [g1'] at g1
    obtain rfl : rp = rp' := Except.ok.inj g1
    have g2' : getPricePerCredit rp inp.region = Except.ok ppc := by
      simp [getPricePerCredit, hppc]
    rw [g2'] at g2
    obtain rfl : ppc = ppc' := Except.ok.inj g2
    rw [hres1] at g12
    obtain rfl : p = price := Except.ok.inj g12
    subst hres
    simp only [assemble]
  · intro q ed rg
    constructor
    · rintro ⟨msg, hmsg⟩
      rw [resolvePrice] at hmsg
      by_cases hcond : q (editionKey q ed) = none ∧ q "business_critical" = none
      · exact hcond
      · rw [if_neg hcond] at hmsg
        exfalso
        rcases hek : q (editionKey q ed) with - | v <;> rw [hek] at hmsg
        · rcases hbc : q "business_critical" with - | w <;> rw [hbc] at hmsg <;>
            simp at hmsg
        · by_cases hv0 : v = 0
          · simp only [hv0] at hmsg
            rcases hbc : q "business_critical" with - | w <;> rw [hbc] at hmsg <;>
              simp at hmsg
          · simp [hv0] at hmsg
    · intro hcond
      exact ⟨_, by rw [resolvePrice, if_pos hcond]⟩

/-- Witness for C6: vps edition against the demo region, whose price map
has no vps entry and a business_critical price of 4. -/
theorem c6_vps_fallback_witness :
    resolvePrice demoPPC demoInputVps.edition demoInputVps.region = Except.ok 4 ∧
    (∀ res, compute demoInputVps demoPricing demoRules demoCalib = Except.ok res →
      res.monthly.dollarsCompute = res.monthly.credits * 4) ∧
    (∀ (q : String → Option ℚ) (ed rg : String),
      (∃ msg, resolvePrice q ed rg = Except.error (PyErr.valueError msg)) ↔
      (q (editionKey q ed) = none ∧ q "business_critical" = none)) :=
  @c6_vps_fallback demoInputVps demoPricing demoRules demoCalib demoRegions demoRP
    demoPPC 4 rfl rfl rfl rfl rfl rfl

/-- C8: over tables satisfying the full structural contract, `compute`
succeeds whatever the numeric inputs are, and each zero numeric driver
zeroes exactly its derived breakdown fields: zero CPU-seconds gives zero
warehouse and cloud-services credits, zero frequency gives zero monthly
credits and compute dollars, zero data-at-rest TB gives zero regular
storage dollars, zero egress TB gives zero transfer dollars. -/
theorem c8_zero_inputs
    {inp : InputModel} {pricing : Pricing} {rules : Rules} {calib : Calib}
    {rmap : String → Option RegionPricing} {rp : RegionPricing}
    {ppc : String → Option ℚ} {wfm : String → Option FamilyCfg}
    {sfm wm : String → Option ℚ} {k : ℚ} {cswp : ℚ × ℚ} {sl : ServerlessCfg}
    {p : ℚ}
    (hr : pricing.regions = some rmap)
    (hreg : rmap inp.region = some rp)
    (hppc : rp.pricePerCredit = some ppc)
    (hwf : calib.workloadFamilies = some wfm)
    (hsf : rules.sizeFactor = some sfm)
    (hwm : rules.warehouseCreditsPerHour = some wm)
    (hk : resolveK wfm calib.defaultFamily inp.family = Except.ok k)
    (hlad : ∀ s ∈ sizeOrder, ∃ q, sfm s = some q ∧ q ≠ 0)
    (hwml : ∀ s ∈ sizeOrder, (wm s).isSome)
    (hcsp : getCSParams rules = Except.ok cswp)
    (hsl : pricing.serverless = some sl)
    (hbc : ppc "business_critical" = some p) :
    ∃ res, compute inp pricing rules calib = Except.ok res ∧
      (inp.db2_cpu_seconds_per_day = 0 →
        res.daily.whCreditsDay = 0 ∧ res.daily.csCreditsDay = 0) ∧
      (inp.frequency_per_month = 0 →
        res.monthly.credits = 0 ∧ res.monthly.dollarsCompute = 0) ∧
      (inp.uncompressed_tb_at_rest = 0 → res.monthly.dollarsStorageRegular = 0) ∧
      (inp.egress_tb = 0 → res.monthly.dollarsTransfer = 0) := by
  obtain ⟨size, cph, f, whb, price, hok, hmem, hf, hf0, hcph, hwhb, hpr⟩ :=
    compute_total_of_shape hr hreg hppc hwf hsf hwm hk hlad hwml hcsp hsl hbc
  refine ⟨_, hok, ?_, ?_, ?_, ?_⟩
  · intro h0
    have hwhb0 : whb = 0 := by rw [hwhb, h0]; ring
    constructor
    · simp [assemble, hwhb0]
    · simp [assemble, hwhb0]
  · intro h0
    constructor
    · simp [assemble, h0]
    · simp [assemble, h0]
  · intro h0
    simp [assemble, h0]
  · intro h0
    simp [assemble, h0]

/-- Witness for C8: the demo tables with all four numeric drivers zero. -/
theorem c8_zero_inputs_witness :
    ∃ res, compute demoInputZeros demoPricing demoRules demoCalib = Except.ok res ∧
      (demoInputZeros.db2_cpu_seconds_per_day = 0 →
        res.daily.whCreditsDay = 0 ∧ res.daily.csCreditsDay = 0) ∧
      (demoInputZeros.frequency_per_month = 0 →
        res.monthly.credits = 0 ∧ res.monthly.dollarsCompute = 0) ∧
      (demoInputZeros.uncompressed_tb_at_rest = 0 →
        res.monthly.dollarsStorageRegular = 0) ∧
      (demoInputZeros.egress_tb = 0 → res.monthly.dollarsTransfer = 0) :=
  c8_zero_inputs rfl rfl rfl rfl rfl rfl rfl
    (by
      intro s hs
      simp only [sizeOrder, List.mem_cons, List.not_mem_nil, or_false] at hs
      rcases hs with rfl | rfl | rfl | rfl | rfl | rfl | rfl | rfl <;>
        exact ⟨_, rfl, by norm_num⟩)
    (by
      intro s hs
      simp only [sizeOrder, List.mem_cons, List.not_mem_nil, or_false] at hs
      rcases hs with rfl | rfl | rfl | rfl | rfl | rfl | rfl | rfl <;> rfl)
    rfl rfl rfl

/-- C9: stage-8 price resolution treats a present-but-zero price for the
resolved edition key as absent: with business_critical present at price p
it resolves to p (and compute dollars use p); with business_critical
absent it raises a raw `KeyError` even though the stage-8 validation
check passes, because the resolved key does exist in the map. -/
theorem c9_falsy_price_fallback (q : String → Option ℚ) (ed rg : String)
    (h0 : q (editionKey q ed) = some 0) :
    (∀ p, q "business_critical" = some p → resolvePrice q ed rg = Except.ok p) ∧
    (q "business_critical" = none →
      resolvePrice q ed rg = Except.error (PyErr.keyError "business_critical") ∧
      ¬(q (editionKey q ed) = none ∧ q "business_critical" = none)) ∧
    (∀ (inp : InputModel) (pricing : Pricing) (rules : Rules) (calib : Calib)
        (res : ResultModel) (rmap : String → Option RegionPricing)
        (rp : RegionPricing) (p : ℚ),
      inp.edition = ed → inp.region = rg →
      pricing.regions = some rmap → rmap inp.region = some rp →
      rp.pricePerCredit = some q →
      q "business_critical" = some p →
      compute inp pricing rules calib = Except.ok res →
      res.monthly.dollarsCompute = res.monthly.credits * p) := by
  have hok1 : ∀ p, q "business_critical" = some p →
      resolvePrice q ed rg = Except.ok p := by
    intro p hp
    simp [resolvePrice, h0, hp]
  refine ⟨hok1, ?_, ?_⟩
  · intro hbc
    constructor
    · simp [resolvePrice, h0, hbc]
    · simp [h0]
  · intro inp pricing rules calib res rmap rp p he hrg hr hreg hppc hp hok
    obtain ⟨rp', ppc', wfm, maps, k, size, cph, f, whb, cswp, sl, price,
      g1, g2, g3, g4, g5, g6, g7, g8, g9, g10, g11, g12, hres⟩ := compute_ok_elim hok
    have g1' : getRegionPricing pricing inp.region = Except.ok rp := by
      simp [getRegionPricing, hr, hreg]
    rw [g1'] at g1
    obtain rfl : rp = rp' := Except.ok.inj g1
    have g2' : getPricePerCredit rp inp.region = Except.ok q := by
      simp [getPricePerCredit, hppc]
    rw [g2'] at g2
    obtain rfl : q = ppc' := Except.ok.inj g2
    rw [he, hrg, hok1 p hp] at g12
    obtain rfl : p = price := Except.ok.inj g12
    subst hres
    simp only [assemble]

/-- Witness for C9: a region whose vps price is 0: with business_critical
at 4 resolution yields 4, compute dollars use 4; without
business_critical resolution raises KeyError though validation passes. -/
theorem c9_falsy_price_fallback_witness :
    resolvePrice demoPPCZeroVps "vps" "aws-us-east-1" = Except.ok 4 ∧
    (resolvePrice demoPPCZeroVpsNoBC "vps" "aws-us-east-1" =
        Except.error (PyErr.keyError "business_critical") ∧
      ¬(demoPPCZeroVpsNoBC (editionKey demoPPCZeroVpsNoBC "vps") = none ∧
        demoPPCZeroVpsNoBC "business_critical" = none)) ∧
    (assemble demoInputVps demoRPZeroVps (9 / 5) "2XL" (216 / 5) (9 / 4) (22 / 5) (1 / 10)
        demoServerless 4).monthly.dollarsCompute =
      (assemble demoInputVps demoRPZeroVps (9 / 5) "2XL" (216 / 5) (9 / 4) (22 / 5) (1 / 10)
        demoServerless 4).monthly.credits * 4 :=
  ⟨(c9_falsy_price_fallback demoPPCZeroVps "vps" "aws-us-east-1" rfl).1 4 rfl,
    (c9_falsy_price_fallback demoPPCZeroVpsNoBC "vps" "aws-us-east-1" rfl).2.1 rfl,
    (c9_falsy_price_fallback demoPPCZeroVps "vps" "aws-us-east-1" rfl).2.2
      demoInputVps demoPricingZeroVps demoRules demoCalib
      (assemble demoInputVps demoRPZeroVps (9 / 5) "2XL" (216 / 5) (9 / 4) (22 / 5) (1 / 10)
        demoServerless 4)
      demoRegionsZeroVps demoRPZeroVps 4 rfl rfl rfl rfl rfl rfl
      (by
        simp only [compute, getRegionPricing, getPricePerCredit, getWorkloadFamilies,
          getRuleMaps, resolveK, pick_size, pickSizeAux, sizeOrder, lookupNum, pyDiv,
          getCSParams, getServerless, resolvePrice, editionKey, demoInputVps, demoInput,
          demoPricingZeroVps, demoRules, demoCalib, demoRegionsZeroVps, demoRPZeroVps,
          demoPPCZeroVps, demoSF, demoWM, Bind.bind, Except.bind, Option.bind, Option.isSome,
          String.reduceEq, reduceIte, Option.getD]
        try norm_num
        try simp
        try norm_num)⟩

/-- C10: when the serverless section exists but its snowpipe
sub-configuration (or the individual rate fields) is absent, `compute`
still succeeds and snowpipe is priced with the built-in defaults: 0.06
credits per 1000 files plus a 1.25× compute-hours multiplier for
standard/enterprise editions, and 0.0037 credits per GB for
business_critical/vps editions. -/
theorem c10_snowpipe_defaults
    {inp : InputModel} {pricing : Pricing} {rules : Rules} {calib : Calib}
    {rmap : String → Option RegionPricing} {rp : RegionPricing}
    {ppc : String → Option ℚ} {wfm : String → Option FamilyCfg}
    {sfm wm : String → Option ℚ} {k : ℚ} {cswp : ℚ × ℚ} {sl : ServerlessCfg}
    {p : ℚ}
    (hr : pricing.regions = some rmap)
    (hreg : rmap inp.region = some rp)
    (hppc : rp.pricePerCredit = some ppc)
    (hwf : calib.workloadFamilies = some wfm)
    (hsf : rules.sizeFactor = some sfm)
    (hwm : rules.warehouseCreditsPerHour = some wm)
    (hk : resolveK wfm calib.defaultFamily inp.family = Except.ok k)
    (hlad : ∀ s ∈ sizeOrder, ∃ q, sfm s = some q ∧ q ≠ 0)
    (hwml : ∀ s ∈ sizeOrder, (wm s).isSome)
    (hcsp : getCSParams rules = Except.ok cswp)
    (hsl : pricing.serverless = some sl)
    (hbc : ppc "business_critical" = some p)
    (hA : (sl.snowpipe.bind SnowpipeCfg.standardEnterprise).bind
      SnowpipeSE.rateCreditsPer1000Files = none)
    (hB : (sl.snowpipe.bind SnowpipeCfg.standardEnterprise).bind
      SnowpipeSE.multiplierCompute = none)
    (hC : (sl.snowpipe.bind SnowpipeCfg.businessCriticalVPS).bind
      SnowpipeBCVPS.rateCreditsPerGB = none) :
    (¬(inp.edition = "business_critical" ∨ inp.edition = "vps") →
      snowpipeCredits sl inp =
        inp.snowpipe_files_per_day / 1000 * (6 / 100) +
          inp.snowpipe_compute_hours_per_day * (5 / 4)) ∧
    ((inp.edition = "business_critical" ∨ inp.edition = "vps") →
      snowpipeCredits sl inp = inp.snowpipe_uncompressed_gb_per_day * (37 / 10000)) ∧
    ∃ res, compute inp pricing rules calib = Except.ok res ∧
      res.daily.serverlessCreditsDay =
        snowpipeCredits sl inp + searchOptCredits sl inp + tasksCredits sl inp := by
  refine ⟨?_, ?_, ?_⟩
  · intro hne
    simp [snowpipeCredits, hne, hA, hB]
  · intro hyes
    simp [snowpipeCredits, hyes, hC]
  · obtain ⟨size, cph, f, whb, price, hok, -⟩ :=
      compute_total_of_shape hr hreg hppc hwf hsf hwm hk hlad hwml hcsp hsl hbc
    exact ⟨_, hok, by simp only [assemble, serverlessCredits]⟩

/-- Witness for C10: demo tables whose serverless section has no snowpipe
sub-configuration, with 2000 files, 4 compute hours and 100 GB per day on
the enterprise edition. -/
theorem c10_snowpipe_defaults_witness :
    (¬(demoInputSnowpipe.edition = "business_critical" ∨
        demoInputSnowpipe.edition = "vps") →
      snowpipeCredits demoServerlessNoSnowpipe demoInputSnowpipe =
        demoInputSnowpipe.snowpipe_files_per_day / 1000 * (6 / 100) +
          demoInputSnowpipe.snowpipe_compute_hours_per_day * (5 / 4)) ∧
    ((demoInputSnowpipe.edition = "business_critical" ∨
        demoInputSnowpipe.edition = "vps") →
      snowpipeCredits demoServerlessNoSnowpipe demoInputSnowpipe =
        demoInputSnowpipe.snowpipe_uncompressed_gb_per_day * (37 / 10000)) ∧
    ∃ res, compute demoInputSnowpipe demoPricingNoSnowpipe demoRules demoCalib =
        Except.ok res ∧
      res.daily.serverlessCreditsDay =
        snowpipeCredits demoServerlessNoSnowpipe demoInputSnowpipe +
          searchOptCredits demoServerlessNoSnowpipe demoInputSnowpipe +
          tasksCredits demoServerlessNoSnowpipe demoInputSnowpipe :=
  c10_snowpipe_defaults rfl rfl rfl rfl rfl rfl rfl
    (by
      intro s hs
      simp only [sizeOrder, List.mem_cons, List.not_mem_nil, or_false] at hs
      rcases hs with rfl | rfl | rfl | rfl | rfl | rfl | rfl | rfl <;>
        exact ⟨_, rfl, by norm_num⟩)
    (by
      intro s hs
      simp only [sizeOrder, List.mem_cons, List.not_mem_nil, or_false] at hs
      rcases hs with rfl | rfl | rfl | rfl | rfl | rfl | rfl | rfl <;> rfl)
    rfl rfl rfl rfl rfl rfl
